import Mathlib

/-!
# Verification of the humidity physics module

Shallow embedding of `app/utils/humidity.py`, the humidity calculator of the
`weather_humidity` service.  The two Python functions operate on IEEE floats;
they are modelled here over the reals `ℝ`:

* a missing (`None`) argument is an `Option.none` input;
* Python's `try/except (ValueError, ZeroDivisionError, OverflowError)` block
  is modelled by explicit zero tests on every divisor that appears in the
  Python code (a Python division raises `ZeroDivisionError` exactly when its
  divisor is zero); over `ℝ`, `Real.exp` is total and never overflows, so the
  `OverflowError` branch has no real-number counterpart;
* Python's `round(x, n)` (round to `n` decimal places) is modelled with
  Mathlib's `round` on `ℝ`, scaled by `10 ^ n`.  The two roundings agree
  except at exact decimal ties, where Python rounds half-to-even and `round`
  rounds half-up; no quantity considered below lands on a tie.
-/

namespace WeatherHumidity

noncomputable section

open Real

/-- Universal gas constant, J/(mol·K) — the constant `R` of the source. -/
def R : ℝ := 8.314462618

/-- Molecular weight of water, g/mol — the constant `mw` of the source. -/
def mw : ℝ := 18.01528

/-- `round(x, 2)` of the source: round to two decimal places. -/
def round2 (x : ℝ) : ℝ := (round (x * 100) : ℤ) / 100

/-- `round(x, 1)` of the source: round to one decimal place. -/
def round1 (x : ℝ) : ℝ := (round (x * 10) : ℤ) / 10

/-- `calculate_absolute_humidity` of `app/utils/humidity.py`: absolute
humidity in g/m³ from temperature (°C) and relative humidity (%), rounded to
two decimals, or `none` when an input is missing or a division has a zero
divisor (Python: `ZeroDivisionError` caught by the `except` clause). -/
def calculate_absolute_humidity : Option ℝ → Option ℝ → Option ℝ
  | some temp_c, some relative_humidity =>
      if temp_c + 243.5 = 0 then none
      else
        let es : ℝ := 6.112 * Real.exp ((17.67 * temp_c) / (temp_c + 243.5))
        let e : ℝ := es * (relative_humidity / 100.0)
        let temp_k : ℝ := temp_c + 273.15
        if R * temp_k = 0 then none
        else some (round2 ((e * mw) / (R * temp_k) * 100))
  | _, _ => none

/-- `calculate_relative_humidity_for_room` of `app/utils/humidity.py`:
relative humidity (%) at room temperature from an absolute humidity (g/m³),
rounded to one decimal, or `none` when an input is missing or a division has
a zero divisor. -/
def calculate_relative_humidity_for_room : Option ℝ → Option ℝ → Option ℝ
  | some absolute_humidity, some room_temp_c =>
      if room_temp_c + 243.5 = 0 then none
      else
        let es_room : ℝ :=
          6.112 * Real.exp ((17.67 * room_temp_c) / (room_temp_c + 243.5))
        let temp_k : ℝ := room_temp_c + 273.15
        let e_room : ℝ := (absolute_humidity * R * temp_k) / (mw * 100)
        if es_room = 0 then none
        else some (round1 ((e_room / es_room) * 100))
  | _, _ => none

end

/-! ## Basic facts about the embedding -/

theorem R_pos : (0 : ℝ) < R := by norm_num [R]

theorem mw_pos : (0 : ℝ) < mw := by norm_num [mw]

theorem round2_def (x : ℝ) : round2 x = (round (x * 100) : ℤ) / 100 := rfl

theorem round1_def (x : ℝ) : round1 x = (round (x * 10) : ℤ) / 10 := rfl

/-- Rounding to two decimals moves a value by at most `1/200`. -/
theorem abs_round2_sub (x : ℝ) : |round2 x - x| ≤ 1 / 200 := by
  have h := abs_sub_round (x * 100)
  rw [abs_sub_comm] at h
  have h2 : round2 x - x = (((round (x * 100) : ℤ) : ℝ) - x * 100) / 100 := by
    rw [round2_def]; ring
  rw [h2, abs_div, abs_of_pos (show (0:ℝ) < 100 by norm_num),
    div_le_div_iff₀ (by norm_num) (by norm_num)]
  linarith

/-- Rounding to one decimal moves a value by at most `1/20`. -/
theorem abs_round1_sub (x : ℝ) : |round1 x - x| ≤ 1 / 20 := by
  have h := abs_sub_round (x * 10)
  rw [abs_sub_comm] at h
  have h2 : round1 x - x = (((round (x * 10) : ℤ) : ℝ) - x * 10) / 10 := by
    rw [round1_def]; ring
  rw [h2, abs_div, abs_of_pos (show (0:ℝ) < 10 by norm_num),
    div_le_div_iff₀ (by norm_num) (by norm_num)]
  linarith

/-- Unfolding lemma for `calculate_absolute_humidity` on present inputs with
nonzero divisors. -/
theorem calculate_absolute_humidity_eq (t rh : ℝ)
    (h1 : t + 243.5 ≠ 0) (h2 : R * (t + 273.15) ≠ 0) :
    calculate_absolute_humidity (some t) (some rh) =
      some (round2 ((6.112 * Real.exp ((17.67 * t) / (t + 243.5)) *
        (rh / 100.0) * mw) / (R * (t + 273.15)) * 100)) := by
  simp only [calculate_absolute_humidity, if_neg h1, if_neg h2]

/-- Unfolding lemma for `calculate_relative_humidity_for_room` on present
inputs away from the Magnus-Tetens pole: the saturation-pressure factor is a
positive multiple of an exponential, so the second divisor test never fires. -/
theorem calculate_relative_humidity_for_room_eq (ah t : ℝ)
    (h1 : t + 243.5 ≠ 0) :
    calculate_relative_humidity_for_room (some ah) (some t) =
      some (round1 ((((ah * R * (t + 273.15)) / (mw * 100)) /
        (6.112 * Real.exp ((17.67 * t) / (t + 243.5)))) * 100)) := by
  have hes : (6.112 : ℝ) * Real.exp ((17.67 * t) / (t + 243.5)) ≠ 0 := by
    positivity
  simp only [calculate_relative_humidity_for_room, if_neg h1, if_neg hes]

/-! ## Claims -/

/-- **C2.** For all present inputs on which the arithmetic succeeds (both
divisors nonzero), `calculate_absolute_humidity` returns exactly the
Magnus-Tetens expression
`round((6.112 * exp((17.67*t)/(t+243.5)) * (rh/100) * 18.01528)
       / (8.314462618 * (t + 273.15)) * 100, 2)`. -/
theorem absolute_humidity_formula (t rh : ℝ)
    (h1 : t + 243.5 ≠ 0) (h2 : 8.314462618 * (t + 273.15) ≠ 0) :
    calculate_absolute_humidity (some t) (some rh) =
      some (round2 ((6.112 * Real.exp ((17.67 * t) / (t + 243.5)) *
        (rh / 100.0) * 18.01528) / (8.314462618 * (t + 273.15)) * 100)) := by
  have h2' : R * (t + 273.15) ≠ 0 := by rw [R]; exact h2
  rw [calculate_absolute_humidity_eq t rh h1 h2', mw, R]

/-- **C2 witness** at `t = 20`, `rh = 50`: both side conditions hold and the
formula equation follows. -/
theorem absolute_humidity_formula_witness :
    ((20 : ℝ) + 243.5 ≠ 0 ∧ (8.314462618 : ℝ) * (20 + 273.15) ≠ 0) ∧
    calculate_absolute_humidity (some 20) (some 50) =
      some (round2 ((6.112 * Real.exp ((17.67 * 20) / (20 + 243.5)) *
        (50 / 100.0) * 18.01528) / (8.314462618 * (20 + 273.15)) * 100)) :=
  ⟨⟨by norm_num, by norm_num⟩,
    absolute_humidity_formula 20 50 (by norm_num) (by norm_num)⟩

/-- **C3.** For all present inputs away from the Magnus-Tetens pole,
`calculate_relative_humidity_for_room` returns exactly
`round(((ah * 8.314462618 * (t + 273.15)) / (18.01528 * 100))
       / (6.112 * exp((17.67*t)/(t+243.5))) * 100, 1)`, with no clamping:
whatever the expression yields — also above 100 or below 0 — is passed
through unmodified. -/
theorem room_relative_humidity_formula (ah t : ℝ)
    (h1 : t + 243.5 ≠ 0) :
    calculate_relative_humidity_for_room (some ah) (some t) =
      some (round1 ((((ah * 8.314462618 * (t + 273.15)) / (18.01528 * 100)) /
        (6.112 * Real.exp ((17.67 * t) / (t + 243.5)))) * 100)) := by
  rw [calculate_relative_humidity_for_room_eq ah t h1, mw, R]

/-- **C3 witness** at `ah = 10`, `t = 22`. -/
theorem room_relative_humidity_formula_witness :
    ((22 : ℝ) + 243.5 ≠ 0) ∧
    calculate_relative_humidity_for_room (some 10) (some 22) =
      some (round1 ((((10 * 8.314462618 * (22 + 273.15)) / (18.01528 * 100)) /
        (6.112 * Real.exp ((17.67 * 22) / (22 + 243.5)))) * 100)) :=
  ⟨by norm_num, room_relative_humidity_formula 10 22 (by norm_num)⟩

/-- **C5.** Missing input yields no result: whenever at least one argument is
`none`, both functions return `none`; in particular at the four concrete
pairs named by the specification. -/
theorem missing_input_yields_none :
    (∀ x : Option ℝ, calculate_absolute_humidity none x = none) ∧
    (∀ x : Option ℝ, calculate_absolute_humidity x none = none) ∧
    (∀ x : Option ℝ, calculate_relative_humidity_for_room none x = none) ∧
    (∀ x : Option ℝ, calculate_relative_humidity_for_room x none = none) ∧
    calculate_absolute_humidity none (some 50) = none ∧
    calculate_absolute_humidity (some 20) none = none ∧
    calculate_relative_humidity_for_room none (some 22) = none ∧
    calculate_relative_humidity_for_room (some 10) none = none := by
  refine ⟨fun x => ?_, fun x => ?_, fun x => ?_, fun x => ?_, rfl, rfl, rfl, rfl⟩
  · cases x <;> rfl
  · cases x <;> rfl
  · cases x <;> rfl
  · cases x <;> rfl

/-- **C10.** At `temp_c = -243.5` the Magnus-Tetens denominator
`temp_c + 243.5` vanishes; both functions return `none` for every present
other argument (Python: the division by zero raises `ZeroDivisionError`,
caught internally). -/
theorem magnus_pole_yields_none :
    (∀ rh : ℝ, calculate_absolute_humidity (some (-243.5)) (some rh) = none) ∧
    (∀ ah : ℝ,
      calculate_relative_humidity_for_room (some ah) (some (-243.5)) = none) := by
  constructor
  · intro rh
    simp only [calculate_absolute_humidity, if_pos (by norm_num : (-243.5 : ℝ) + 243.5 = 0)]
  · intro ah
    simp only [calculate_relative_humidity_for_room,
      if_pos (by norm_num : (-243.5 : ℝ) + 243.5 = 0)]

/-- **C9.** Determinism: the embedding of each function is a pure function of
its arguments — the Python bodies read no clock, randomness or mutable state —
so two calls with identical arguments return identical results. -/
theorem calls_deterministic (a₁ a₂ b₁ b₂ : Option ℝ)
    (ha : a₁ = a₂) (hb : b₁ = b₂) :
    calculate_absolute_humidity a₁ b₁ = calculate_absolute_humidity a₂ b₂ ∧
    calculate_relative_humidity_for_room a₁ b₁ =
      calculate_relative_humidity_for_room a₂ b₂ := by
  subst ha; subst hb; exact ⟨rfl, rfl⟩

/-- **C9 witness** at a concrete repeated call. -/
theorem calls_deterministic_witness :
    (some (20 : ℝ) = some 20 ∧ some (50 : ℝ) = some 50) ∧
    (calculate_absolute_humidity (some 20) (some 50) =
        calculate_absolute_humidity (some 20) (some 50) ∧
      calculate_relative_humidity_for_room (some 20) (some 50) =
        calculate_relative_humidity_for_room (some 20) (some 50)) :=
  ⟨⟨rfl, rfl⟩, calls_deterministic (some 20) (some 20) (some 50) (some 50) rfl rfl⟩

/-- **C6.** Totality: on every pair of optional real inputs each function
returns either `none` or a number on the corresponding decimal grid (an
integer number of hundredths, resp. tenths); every abnormal arithmetic
condition collapses to `none` inside the function and no fault escapes —
in the embedding, both functions are total Lean functions into `Option ℝ`. -/
theorem totality_rounded_or_none (a b : Option ℝ) :
    (calculate_absolute_humidity a b = none ∨
      ∃ n : ℤ, calculate_absolute_humidity a b = some ((n : ℝ) / 100)) ∧
    (calculate_relative_humidity_for_room a b = none ∨
      ∃ n : ℤ, calculate_relative_humidity_for_room a b = some ((n : ℝ) / 10)) := by
  constructor
  · match a, b with
    | none, none => exact Or.inl rfl
    | none, some y => exact Or.inl rfl
    | some x, none => exact Or.inl rfl
    | some x, some y =>
      simp only [calculate_absolute_humidity]
      split_ifs
      · exact Or.inl rfl
      · exact Or.inl rfl
      · exact Or.inr ⟨_, rfl⟩
  · match a, b with
    | none, none => exact Or.inl rfl
    | none, some y => exact Or.inl rfl
    | some x, none => exact Or.inl rfl
    | some x, some y =>
      simp only [calculate_relative_humidity_for_room]
      split_ifs
      · exact Or.inl rfl
      · exact Or.inl rfl
      · exact Or.inr ⟨_, rfl⟩

/-- Rounding to two decimals preserves non-negativity. -/
theorem round2_nonneg {x : ℝ} (hx : 0 ≤ x) : 0 ≤ round2 x := by
  rw [round2_def, round_eq]
  have h : (0 : ℤ) ≤ ⌊x * 100 + 1 / 2⌋ := by
    rw [Int.le_floor]
    push_cast
    linarith
  positivity

/-- **C7.** For `temp_c ∈ [-50, 50]` and `relative_humidity ∈ [0, 100]`,
`calculate_absolute_humidity` returns a number (not `none`), and that number
is non-negative. -/
theorem absolute_humidity_nonneg (t rh : ℝ)
    (h1 : -50 ≤ t) (h2 : t ≤ 50) (h3 : 0 ≤ rh) (h4 : rh ≤ 100) :
    ∃ y : ℝ, calculate_absolute_humidity (some t) (some rh) = some y ∧
      0 ≤ y := by
  have hden : t + 243.5 ≠ 0 := by intro h; linarith [h.ge]
  have hkpos : 0 < R * (t + 273.15) := by
    apply mul_pos R_pos; linarith
  have hu : 0 ≤ (6.112 * Real.exp ((17.67 * t) / (t + 243.5)) *
      (rh / 100.0) * mw) / (R * (t + 273.15)) * 100 := by
    apply mul_nonneg _ (by norm_num)
    apply div_nonneg _ hkpos.le
    apply mul_nonneg _ mw_pos.le
    apply mul_nonneg (by positivity) (by linarith)
  exact ⟨_, calculate_absolute_humidity_eq t rh hden hkpos.ne',
    round2_nonneg hu⟩

/-- **C7 witness** at `t = 20`, `rh = 50`. -/
theorem absolute_humidity_nonneg_witness :
    (-50 ≤ (20 : ℝ) ∧ (20 : ℝ) ≤ 50 ∧ 0 ≤ (50 : ℝ) ∧ (50 : ℝ) ≤ 100) ∧
    ∃ y : ℝ, calculate_absolute_humidity (some 20) (some 50) = some y ∧
      0 ≤ y :=
  ⟨⟨by norm_num, by norm_num, by norm_num, by norm_num⟩,
    absolute_humidity_nonneg 20 50 (by norm_num) (by norm_num) (by norm_num)
      (by norm_num)⟩

/-- **C4 counterexample.** At `room_temp_c = -273.15` (absolute zero) the
function does NOT return `none`: the Kelvin temperature `0` is a *factor* of
the vapor-pressure numerator, not a divisor, so no division by zero occurs
and the call returns `some 0`. -/
theorem room_humidity_absolute_zero_counterexample :
    calculate_relative_humidity_for_room (some 10) (some (-273.15)) ≠ none ∧
    calculate_relative_humidity_for_room (some 10) (some (-273.15)) =
      some 0 := by
  have h : calculate_relative_humidity_for_room (some 10) (some (-273.15)) =
      some 0 := by
    rw [calculate_relative_humidity_for_room_eq 10 (-273.15) (by norm_num)]
    norm_num [round1_def]
  exact ⟨by rw [h]; exact Option.some_ne_none 0, h⟩

/-- **C4 amended.** For every present `absolute_humidity`, the call at
`room_temp_c = -273.15` returns `some 0` — a finite number, with no fault
raised and no infinity produced — rather than `none`. -/
theorem room_humidity_absolute_zero (ah : ℝ) :
    calculate_relative_humidity_for_room (some ah) (some (-273.15)) =
      some 0 := by
  rw [calculate_relative_humidity_for_room_eq ah (-273.15) (by norm_num)]
  norm_num [round1_def]

/-- Evaluation rule: `round2 x` is `n/100` once `x * 100 + 1/2` lies in
`[n, n+1)`. -/
theorem round2_eq_of_bounds (x : ℝ) (n : ℤ) (h1 : (n : ℝ) ≤ x * 100 + 1 / 2)
    (h2 : x * 100 + 1 / 2 < (n : ℝ) + 1) : round2 x = (n : ℝ) / 100 := by
  rw [round2_def, round_eq, Int.floor_eq_iff.mpr ⟨h1, by push_cast; linarith⟩]

/-- Evaluation rule: `round1 x` is `n/10` once `x * 10 + 1/2` lies in
`[n, n+1)`. -/
theorem round1_eq_of_bounds (x : ℝ) (n : ℤ) (h1 : (n : ℝ) ≤ x * 10 + 1 / 2)
    (h2 : x * 10 + 1 / 2 < (n : ℝ) + 1) : round1 x = (n : ℝ) / 10 := by
  rw [round1_def, round_eq, Int.floor_eq_iff.mpr ⟨h1, by push_cast; linarith⟩]

/-- Taylor lower bound for the saturation-pressure exponential at `57/85`
(the Magnus-Tetens exponent at 20 °C is `114/85`; this is its half). -/
theorem exp_5785_lower : (1.9553871 : ℝ) ≤ Real.exp (57 / 85) := by
  have h := Real.sum_le_exp_of_nonneg (by norm_num : (0:ℝ) ≤ 57 / 85) 9
  refine le_trans ?_ h
  simp only [Finset.sum_range_succ, Finset.sum_range_zero]
  norm_num [Nat.factorial]

/-- Taylor upper bound for the saturation-pressure exponential at `57/85`. -/
theorem exp_5785_upper : Real.exp (57 / 85) ≤ 1.9553873 := by
  have h := Real.exp_bound' (by norm_num : (0:ℝ) ≤ 57 / 85) (by norm_num)
    (by norm_num : 0 < 9)
  refine le_trans h ?_
  simp only [Finset.sum_range_succ, Finset.sum_range_zero]
  norm_num [Nat.factorial]

/-- Two-sided bounds for the Magnus-Tetens exponential at 20 °C:
`exp((17.67 * 20)/(20 + 243.5)) = exp(114/85)`. -/
theorem exp_11485_bounds :
    (3.8235383 : ℝ) ≤ Real.exp (114 / 85) ∧
      Real.exp (114 / 85) ≤ 3.8235395 := by
  have h2 : Real.exp ((114 : ℝ) / 85) = Real.exp (57 / 85) ^ 2 := by
    rw [← Real.exp_nat_mul]
    norm_num
  constructor
  · rw [h2]
    calc (3.8235383 : ℝ) ≤ 1.9553871 ^ 2 := by norm_num
      _ ≤ Real.exp (57 / 85) ^ 2 :=
        pow_le_pow_left (by norm_num) exp_5785_lower 2
  · rw [h2]
    calc Real.exp (57 / 85) ^ 2 ≤ 1.9553873 ^ 2 :=
        pow_le_pow_left (Real.exp_pos _).le exp_5785_upper 2
      _ ≤ 3.8235395 := by norm_num

/-- The call at 20 °C, 50 % relative humidity returns exactly `8.64` g/m³
(the raw value is `≈ 8.6365`). -/
theorem absolute_humidity_at_20_50 :
    calculate_absolute_humidity (some 20) (some 50) = some 8.64 := by
  rw [calculate_absolute_humidity_eq 20 50 (by norm_num) (by rw [R]; norm_num)]
  congr 1
  have harg : ((17.67 * 20 : ℝ) / (20 + 243.5)) = 114 / 85 := by norm_num
  rw [harg]
  have hE := exp_11485_bounds
  have hD : (0:ℝ) < 8.314462618 * (20 + 273.15) := by norm_num
  have h864 : round2 ((6.112 * Real.exp ((114 : ℝ) / 85) * (50 / 100.0) * mw) /
      (R * (20 + 273.15)) * 100) = ((864 : ℤ) : ℝ) / 100 := by
    apply round2_eq_of_bounds
    · rw [R, mw]
      push_cast
      rw [div_mul_eq_mul_div, div_mul_eq_mul_div, ← sub_le_iff_le_add,
        le_div_iff₀ hD]
      nlinarith [hE.1, hE.2]
    · rw [R, mw]
      push_cast
      rw [div_mul_eq_mul_div, div_mul_eq_mul_div, ← lt_sub_iff_add_lt,
        div_lt_iff₀ hD]
      nlinarith [hE.1, hE.2]
  rw [h864]; norm_num

/-- **C8 counterexample.** The Magnus-Tetens formula at `(20, 50)` rounds to
`8.64` g/m³, not `8.65` as the specification asserts: the raw value is
`≈ 8.6365`, below the `8.645` threshold. -/
theorem absolute_humidity_20_50_not_865 :
    calculate_absolute_humidity (some 20) (some 50) ≠ some 8.65 ∧
    calculate_absolute_humidity (some 20) (some 50) = some 8.64 := by
  have h := absolute_humidity_at_20_50
  refine ⟨?_, h⟩
  rw [h]
  simp only [ne_eq, Option.some.injEq]
  norm_num

/-- **C8 amended.** Concrete scenario: `calculate_absolute_humidity(20, 50)`
returns `8.64` g/m³ — the formula value `≈ 8.6365` rounded to two decimal
places. -/
theorem absolute_humidity_concrete_scenario :
    calculate_absolute_humidity (some 20) (some 50) = some 8.64 :=
  absolute_humidity_at_20_50

/-- **C1 counterexample.** The round-trip property fails inside the claimed
range: at `temp_c = 0`, `relative_humidity = 0.51` the absolute humidity
(raw `≈ 0.0247`) rounds down to `0.02`, and mapping back yields `0.4`, which
differs from `0.51` by `0.11 > 0.1`. -/
theorem roundtrip_counterexample :
    calculate_absolute_humidity (some 0) (some 0.51) = some 0.02 ∧
    calculate_relative_humidity_for_room (some 0.02) (some 0) = some 0.4 ∧
    ¬ |(0.4 : ℝ) - 0.51| ≤ 0.1 := by
  refine ⟨?_, ?_, ?_⟩
  · rw [calculate_absolute_humidity_eq 0 0.51 (by norm_num) (by rw [R]; norm_num)]
    congr 1
    have harg : ((17.67 * 0 : ℝ) / (0 + 243.5)) = 0 := by norm_num
    rw [harg, Real.exp_zero]
    have h2 : round2 ((6.112 * 1 * (0.51 / 100.0) * mw) /
        (R * (0 + 273.15)) * 100) = ((2 : ℤ) : ℝ) / 100 := by
      apply round2_eq_of_bounds
      · rw [R, mw]; push_cast; norm_num
      · rw [R, mw]; push_cast; norm_num
    rw [h2]; norm_num
  · rw [calculate_relative_humidity_for_room_eq 0.02 0 (by norm_num)]
    congr 1
    have harg : ((17.67 * 0 : ℝ) / (0 + 243.5)) = 0 := by norm_num
    rw [harg, Real.exp_zero]
    have h4 : round1 ((((0.02 * R * (0 + 273.15)) / (mw * 100)) /
        (6.112 * 1)) * 100) = ((4 : ℤ) : ℝ) / 10 := by
      apply round1_eq_of_bounds
      · rw [R, mw]; push_cast; norm_num
      · rw [R, mw]; push_cast; norm_num
    rw [h4]; norm_num
  · rw [not_le, show (0.4 : ℝ) - 0.51 = -(0.11) by norm_num, abs_neg,
      abs_of_pos (by norm_num : (0:ℝ) < 0.11)]
    norm_num

/-- Error propagation through the two roundings of the round-trip: rounding
the absolute humidity to two decimals perturbs it by at most `1/200`, which
the inverse map amplifies by `1/c`; the final one-decimal rounding adds at
most `1/20`.  For `c ≥ 0.107` the total stays within `0.1`. -/
theorem roundtrip_error_bound (rh c : ℝ) (hc : (0.107 : ℝ) ≤ c) :
    |round1 (round2 (rh * c) / c) - rh| ≤ 0.1 := by
  have hcpos : (0:ℝ) < c := lt_of_lt_of_le (by norm_num) hc
  have h1 : |round2 (rh * c) - rh * c| ≤ 1 / 200 := abs_round2_sub _
  have h2 : |round1 (round2 (rh * c) / c) - round2 (rh * c) / c| ≤ 1 / 20 :=
    abs_round1_sub _
  have h3 : round2 (rh * c) / c - rh = (round2 (rh * c) - rh * c) / c := by
    field_simp
    ring
  have h4 : |round2 (rh * c) / c - rh| ≤ (1 / 200) / c := by
    rw [h3, abs_div, abs_of_pos hcpos]
    exact (div_le_div_right hcpos).mpr h1
  have h5 : (1 / 200 : ℝ) / c ≤ (1 / 200) / 0.107 := by
    rw [div_le_div_iff₀ hcpos (by norm_num)]
    nlinarith
  have htri := abs_sub_le (round1 (round2 (rh * c) / c)) (round2 (rh * c) / c) rh
  have hnum : (1 / 20 : ℝ) + (1 / 200) / 0.107 ≤ 0.1 := by norm_num
  linarith

/-- Lower bound for the Magnus-Tetens exponential at 15 °C, via
`exp x ≥ (1 + x/8)^8`. -/
theorem exp_at_15_low : (2.6241 : ℝ) ≤ Real.exp (265.05 / 258.5) := by
  have hE8 : Real.exp ((265.05 : ℝ) / 258.5)
      = Real.exp ((265.05 : ℝ) / 258.5 / 8) ^ 8 := by
    rw [← Real.exp_nat_mul]
    norm_num
  have h1 : (1 : ℝ) + 265.05 / 258.5 / 8 ≤ Real.exp (265.05 / 258.5 / 8) := by
    have := Real.add_one_le_exp ((265.05 : ℝ) / 258.5 / 8)
    linarith
  have h2 : ((1 : ℝ) + 265.05 / 258.5 / 8) ^ 8
      ≤ Real.exp ((265.05 : ℝ) / 258.5 / 8) ^ 8 :=
    pow_le_pow_left (by norm_num) h1 8
  have h3 : (2.6241 : ℝ) ≤ ((1 : ℝ) + 265.05 / 258.5 / 8) ^ 8 := by norm_num
  rw [hE8]
  linarith

/-- **C1 amended.** Round-trip: for `temp_c ∈ [15, 50]` and
`relative_humidity ∈ [0, 100]`, computing the absolute humidity and mapping
it back at the same temperature yields a value within `0.1` of the original
relative humidity.  (On the originally claimed range `[-50, 50]` the property
fails: at low temperatures the two-decimal rounding of the small absolute
humidity is too coarse — see the counterexample at 0 °C.) -/
theorem roundtrip_within_tolerance (t rh : ℝ)
    (ht1 : 15 ≤ t) (ht2 : t ≤ 50) (hrh1 : 0 ≤ rh) (hrh2 : rh ≤ 100) :
    ∃ a b : ℝ, calculate_absolute_humidity (some t) (some rh) = some a ∧
      calculate_relative_humidity_for_room (some a) (some t) = some b ∧
      |b - rh| ≤ 0.1 := by
  have hden : (0:ℝ) < t + 243.5 := by linarith
  have hk : (0:ℝ) < t + 273.15 := by linarith
  have hRk : R * (t + 273.15) ≠ 0 := (mul_pos R_pos hk).ne'
  have hEpos : 0 < Real.exp ((17.67 * t) / (t + 243.5)) := Real.exp_pos _
  have hargmono : (265.05 : ℝ) / 258.5 ≤ (17.67 * t) / (t + 243.5) := by
    rw [div_le_div_iff₀ (by norm_num) hden]
    nlinarith
  have hElow : (2.6241 : ℝ) ≤ Real.exp ((17.67 * t) / (t + 243.5)) :=
    le_trans exp_at_15_low (Real.exp_le_exp.mpr hargmono)
  have hc107 : (0.107 : ℝ) ≤
      6.112 * Real.exp ((17.67 * t) / (t + 243.5)) * mw / (R * (t + 273.15)) := by
    rw [le_div_iff₀ (mul_pos R_pos hk), R, mw]
    nlinarith
  have hu : (6.112 * Real.exp ((17.67 * t) / (t + 243.5)) * (rh / 100.0) * mw) /
      (R * (t + 273.15)) * 100 =
      rh * (6.112 * Real.exp ((17.67 * t) / (t + 243.5)) * mw /
        (R * (t + 273.15))) := by
    ring
  have hv : (((round2 (rh * (6.112 * Real.exp ((17.67 * t) / (t + 243.5)) * mw /
        (R * (t + 273.15)))) * R * (t + 273.15)) / (mw * 100)) /
        (6.112 * Real.exp ((17.67 * t) / (t + 243.5)))) * 100 =
      round2 (rh * (6.112 * Real.exp ((17.67 * t) / (t + 243.5)) * mw /
        (R * (t + 273.15)))) /
        (6.112 * Real.exp ((17.67 * t) / (t + 243.5)) * mw /
          (R * (t + 273.15))) := by
    have hmw0 : mw ≠ 0 := mw_pos.ne'
    have hR0 : R ≠ 0 := R_pos.ne'
    have hk0 : (t + 273.15) ≠ 0 := hk.ne'
    have hE0 : Real.exp ((17.67 * t) / (t + 243.5)) ≠ 0 := hEpos.ne'
    field_simp
    ring
  have ha := calculate_absolute_humidity_eq t rh hden.ne' hRk
  rw [hu] at ha
  have hb := calculate_relative_humidity_for_room_eq
    (round2 (rh * (6.112 * Real.exp ((17.67 * t) / (t + 243.5)) * mw /
      (R * (t + 273.15))))) t hden.ne'
  rw [hv] at hb
  exact ⟨_, _, ha, hb,
    roundtrip_error_bound rh
      (6.112 * Real.exp ((17.67 * t) / (t + 243.5)) * mw / (R * (t + 273.15)))
      hc107⟩

/-- **C1 witness** at `t = 20`, `rh = 50`. -/
theorem roundtrip_within_tolerance_witness :
    ((15 : ℝ) ≤ 20 ∧ (20 : ℝ) ≤ 50 ∧ (0 : ℝ) ≤ 50 ∧ (50 : ℝ) ≤ 100) ∧
    ∃ a b : ℝ, calculate_absolute_humidity (some 20) (some 50) = some a ∧
      calculate_relative_humidity_for_room (some a) (some 20) = some b ∧
      |b - 50| ≤ 0.1 :=
  ⟨⟨by norm_num, by norm_num, by norm_num, by norm_num⟩,
    roundtrip_within_tolerance 20 50 (by norm_num) (by norm_num) (by norm_num)
      (by norm_num)⟩

end WeatherHumidity
